import Mathlib

/-!
Verification of the eBird proxy request-mediation pipeline
(`src/api/ebird-enhanced.js` and `src/api/ebird.js`).

Shallow embedding conventions:
* Timestamps and durations are `Nat` milliseconds; every `Date.now()`
  inside one request is modelled by a single `now` parameter.
* The JS `Map`s (`cache`, `rateLimits`) are modelled as functions
  `String → Option _`; `Map.set` is a pointwise functional update and
  `Map.delete` maps the key to `none`.
* The JS builtins `decodeURIComponent` and `fetch` are external to the
  program and are passed in as oracle parameters (`decode`, fetch result
  oracle); `Math.random() < 0.01` is the boolean parameter `doSweep`;
  `process.env.EBIRD_API_KEY` is the parameter `apiKey`.
* `req.query.endpoint` missing or non-string is modelled by `none`;
  the client-IP derivation from headers (l.102-104) is modelled by the
  precomputed field `clientIP`.
-/

namespace Birding

/-- `ALLOWED_PATHS` from ebird-enhanced.js l.5-13 (identical list in
ebird.js l.46-54). -/
def ALLOWED_PATHS : List String :=
  ["/data/obs/",
   "/ref/hotspot/",
   "/ref/region/",
   "/product/spplist/",
   "/product/checklist/",
   "/product/top100/",
   "/ref/taxonomy/"]

/-- JS `s.startsWith(pre)`. -/
def jsStartsWith (s pre : String) : Bool :=
  pre.data.isPrefixOf s.data

/-- `CACHE_TTL` from ebird-enhanced.js l.18-25 as the ordered entry list
produced by `Object.entries` (insertion order, `default` key last). -/
def CACHE_TTL : List (String × Nat) :=
  [("/data/obs/", 5 * 60 * 1000),
   ("/ref/hotspot/", 30 * 60 * 1000),
   ("/ref/region/", 60 * 60 * 1000),
   ("/product/spplist/", 60 * 60 * 1000),
   ("/ref/taxonomy/", 24 * 60 * 60 * 1000),
   ("default", 5 * 60 * 1000)]

/-- `CACHE_TTL.default` from ebird-enhanced.js l.24. -/
def CACHE_TTL_default : Nat := 5 * 60 * 1000

/-- `getCacheTTL` from ebird-enhanced.js l.34-39: first matching entry of
the ordered table, else the default. -/
def getCacheTTL (endpoint : String) : Nat :=
  match CACHE_TTL.find? (fun p => jsStartsWith endpoint p.1) with
  | some p => p.2
  | none => CACHE_TTL_default

/-- `getCacheKey` from ebird-enhanced.js l.41-43. -/
def getCacheKey (endpoint : String) : String :=
  "ebird:" ++ endpoint

/-- `RATE_LIMIT` configuration shape (ebird-enhanced.js l.29-32). -/
structure RateConfig where
  windowMs : Nat
  maxRequests : Nat
deriving DecidableEq

/-- The configured constants: 1 minute window, 100 requests. -/
def RATE_LIMIT : RateConfig := ⟨60 * 1000, 100⟩

/-- One value of the `rateLimits` map (ebird-enhanced.js l.47). -/
structure RateRecord where
  count : Nat
  resetTime : Nat
deriving DecidableEq

/-- Return value of `checkRateLimit` (ebird-enhanced.js l.58-62).
`remaining` is `Math.max(0, maxRequests - count)`, an integer. -/
structure RateResult where
  allowed : Bool
  remaining : Int
  resetTime : Nat
deriving DecidableEq

/-- The `rateLimits` map (ebird-enhanced.js l.28). -/
def RateState := String → Option RateRecord

/-- `checkRateLimit` from ebird-enhanced.js l.45-63, returning the result
together with the updated `rateLimits` map. -/
def checkRateLimit (cfg : RateConfig) (ip : String) (now : Nat)
    (st : RateState) : RateResult × RateState :=
  let record0 := (st ip).getD ⟨0, now + cfg.windowMs⟩
  let record1 := if now > record0.resetTime
    then (⟨0, now + cfg.windowMs⟩ : RateRecord) else record0
  let record : RateRecord := ⟨record1.count + 1, record1.resetTime⟩
  (⟨decide (record.count ≤ cfg.maxRequests),
    max 0 ((cfg.maxRequests : Int) - (record.count : Int)),
    record.resetTime⟩,
   fun k => if k = ip then some record else st k)

/-- `cleanupRateLimits` from ebird-enhanced.js l.66-73. -/
def cleanupRateLimits (now : Nat) (st : RateState) : RateState :=
  fun ip => match st ip with
    | some r => if now > r.resetTime + 60000 then none else some r
    | none => none

/-- One value of the `cache` map (ebird-enhanced.js l.197-200). -/
structure CacheEntry (α : Type) where
  data : α
  expiry : Nat
deriving DecidableEq

/-- The `cache` map (ebird-enhanced.js l.17), payloads of opaque type. -/
def CacheState (α : Type) := String → Option (CacheEntry α)

/-- `cleanupCache` from ebird-enhanced.js l.76-83. -/
def cleanupCache {α : Type} (now : Nat) (c : CacheState α) : CacheState α :=
  fun key => match c key with
    | some e => if now > e.expiry then none else some e
    | none => none

/-- The cache lookup of ebird-enhanced.js l.159-161: the stored entry
counts as a hit only when `Date.now() < entry.expiry`. -/
def cacheGet {α : Type} (now : Nat) (c : CacheState α) (key : String) :
    Option (CacheEntry α) :=
  match c key with
  | some e => if now < e.expiry then some e else none
  | none => none

/-- Outcome of the upstream `fetch` oracle: `success` is `response.ok`
with a parsed JSON body; `httpError` is `!response.ok` with
`response.status` and the `response.text()` body (ebird-enhanced.js
l.182-183); `thrown` is any exception reaching the `catch` (network
failure or JSON parse failure, l.215). -/
inductive FetchResult (α : Type) where
  | success (data : α)
  | httpError (status : Nat) (body : String)
  | thrown (message : String)
deriving DecidableEq

/-- Inbound request: `method`, the `endpoint` query parameter (`none` =
missing or non-string), and the derived client IP. -/
structure Request where
  method : String
  endpoint : Option String
  clientIP : String
deriving DecidableEq

/-- The distinct JSON response bodies produced by the handlers. -/
inductive Body (α : Type) where
  | empty
  | methodNotAllowed
  | rateLimited (retryAfter : Int)
  | missingEndpoint
  | configError
  | invalidEncoding
  | notAllowed (allowed : List String)
  | data (d : α)
  | upstreamError (status : Nat) (details : String)
  | fetchFailed (message : String)
deriving DecidableEq

/-- A response: HTTP status, body, and the `X-Cache` header if set. -/
structure Response (α : Type) where
  status : Nat
  body : Body α
  xCache : Option String
deriving DecidableEq

/-- Process-wide mutable state shared by warm invocations. -/
structure ServerState (α : Type) where
  cache : CacheState α
  rateLimits : RateState

/-- Result of one request: the response, the state afterwards, and the
path fetched upstream (if a fetch was issued at all). -/
structure HandlerResult (α : Type) where
  resp : Response α
  state : ServerState α
  upstreamCalled : Option String

/-- JS `Math.ceil(a / b)` for integer `a` and positive integer `b`
(used at ebird-enhanced.js l.115). -/
def jsCeilDiv (a b : Int) : Int := -((-a).fdiv b)

/-- The request handler of ebird-enhanced.js l.85-222: CORS preflight,
method gate, rate limit, endpoint parameter, API key, decode, allowlist,
cache lookup, upstream fetch, cache store and probabilistic sweep. -/
def handler {α : Type} (decode : String → Option String)
    (fetchUpstream : String → FetchResult α) (apiKey : Option String)
    (doSweep : Bool) (now : Nat) (req : Request) (st : ServerState α) :
    HandlerResult α :=
  if req.method = "OPTIONS" then
    ⟨⟨200, .empty, none⟩, st, none⟩
  else if req.method ≠ "GET" then
    ⟨⟨405, .methodNotAllowed, none⟩, st, none⟩
  else
    let rc := checkRateLimit RATE_LIMIT req.clientIP now st.rateLimits
    let st1 : ServerState α := ⟨st.cache, rc.2⟩
    if rc.1.allowed = false then
      ⟨⟨429, .rateLimited (jsCeilDiv ((rc.1.resetTime : Int) - (now : Int)) 1000),
        none⟩, st1, none⟩
    else
      match req.endpoint with
      | none => ⟨⟨400, .missingEndpoint, none⟩, st1, none⟩
      | some endpoint =>
        match apiKey with
        | none => ⟨⟨500, .configError, none⟩, st1, none⟩
        | some _ =>
          match decode endpoint with
          | none => ⟨⟨400, .invalidEncoding, none⟩, st1, none⟩
          | some decodedEndpoint =>
            if (ALLOWED_PATHS.any fun p => jsStartsWith decodedEndpoint p) = false then
              ⟨⟨403, .notAllowed ALLOWED_PATHS, none⟩, st1, none⟩
            else
              let cacheKey := getCacheKey decodedEndpoint
              match cacheGet now st1.cache cacheKey with
              | some entry =>
                ⟨⟨200, .data entry.data, some "HIT"⟩, st1, none⟩
              | none =>
                match fetchUpstream decodedEndpoint with
                | .httpError status body =>
                  ⟨⟨status, .upstreamError status body, none⟩, st1,
                    some decodedEndpoint⟩
                | .thrown msg =>
                  ⟨⟨500, .fetchFailed msg, none⟩, st1, some decodedEndpoint⟩
                | .success d =>
                  let ttl := getCacheTTL decodedEndpoint
                  let cache2 : CacheState α := fun k =>
                    if k = cacheKey then some ⟨d, now + ttl⟩ else st1.cache k
                  let st2 : ServerState α :=
                    if doSweep then
                      ⟨cleanupCache now cache2, cleanupRateLimits now rc.2⟩
                    else ⟨cache2, rc.2⟩
                  ⟨⟨200, .data d, some "MISS"⟩, st2, some decodedEndpoint⟩

/-- The simpler request handler of ebird.js l.5-102 (no cache, no rate
limiting): method gate, endpoint parameter, API key, decode, allowlist,
upstream fetch. Returns the response and the path fetched (if any). -/
def basicHandler {α : Type} (decode : String → Option String)
    (fetchUpstream : String → FetchResult α) (apiKey : Option String)
    (req : Request) : Response α × Option String :=
  if req.method = "OPTIONS" then
    (⟨200, .empty, none⟩, none)
  else if req.method ≠ "GET" then
    (⟨405, .methodNotAllowed, none⟩, none)
  else
    match req.endpoint with
    | none => (⟨400, .missingEndpoint, none⟩, none)
    | some endpoint =>
      match apiKey with
      | none => (⟨500, .configError, none⟩, none)
      | some _ =>
        match decode endpoint with
        | none => (⟨400, .invalidEncoding, none⟩, none)
        | some decodedEndpoint =>
          if (ALLOWED_PATHS.any fun p => jsStartsWith decodedEndpoint p) = false then
            (⟨403, .notAllowed ALLOWED_PATHS, none⟩, none)
          else
            match fetchUpstream decodedEndpoint with
            | .httpError status body =>
              (⟨status, .upstreamError status body, none⟩, some decodedEndpoint)
            | .thrown msg =>
              (⟨500, .fetchFailed msg, none⟩, some decodedEndpoint)
            | .success d => (⟨200, .data d, none⟩, some decodedEndpoint)

/-- A sequence of `checkRateLimit` calls for one client at given times. -/
def admitSeq (cfg : RateConfig) (ip : String) : List Nat → RateState →
    List RateResult × RateState
  | [], st => ([], st)
  | t :: ts, st =>
    let r := checkRateLimit cfg ip t st
    let rest := admitSeq cfg ip ts r.2
    (r.1 :: rest.1, rest.2)

/-- The empty server state (cold start). -/
def emptyState (α : Type) : ServerState α := ⟨fun _ => none, fun _ => none⟩

/-- Iterate a state transformer. -/
def iterateState {α : Type} (f : ServerState α → ServerState α) :
    Nat → ServerState α → ServerState α
  | 0, s => s
  | n + 1, s => iterateState f n (f s)

/-! ## Helper lemmas -/

/-- Two strings neither of which starts with the other cannot both be
leading segments of the same string. -/
theorem jsStartsWith_incompat (s p q : String)
    (hpq : jsStartsWith q p = false) (hqp : jsStartsWith p q = false)
    (hq : jsStartsWith s q = true) : jsStartsWith s p = false := by
  unfold jsStartsWith at *
  rw [ List.isPrefixOf_iff_prefix] at hq
  by_contra hc
  rw [Bool.not_eq_false, List.isPrefixOf_iff_prefix] at hc
  rcases List.prefix_or_prefix_of_prefix hc hq with h | h
  · rw [← List.isPrefixOf_iff_prefix] at h
    rw [h] at hpq
    exact Bool.true_eq_false.mp hpq
  · rw [← List.isPrefixOf_iff_prefix] at h
    rw [h] at hqp
    exact Bool.true_eq_false.mp hqp

/-! ## C5 -/

/-- C5: the cache lookup is lazy-expiring: a stored entry whose expiry
has passed at the moment of lookup is a miss and its payload is not
returned, while an entry whose expiry is still in the future is
returned as a hit. -/
theorem c5_cacheGet_lazy_expiry {α : Type} (now : Nat) (c : CacheState α)
    (key : String) (e : CacheEntry α) (h : c key = some e) :
    (e.expiry ≤ now → cacheGet now c key = none) ∧
    (now < e.expiry → cacheGet now c key = some e) := by
  constructor
  · intro hle
    simp [cacheGet, h, Nat.not_lt.mpr hle]
  · intro hlt
    simp [cacheGet, h, hlt]

theorem c5_cacheGet_lazy_expiry_witness :
    cacheGet 10 (fun k => if k = "ebird:/data/obs/x" then
      some (⟨7, 5⟩ : CacheEntry Nat) else none) "ebird:/data/obs/x" = none ∧
    cacheGet 3 (fun k => if k = "ebird:/data/obs/x" then
      some (⟨7, 5⟩ : CacheEntry Nat) else none) "ebird:/data/obs/x"
      = some ⟨7, 5⟩ :=
  ⟨(c5_cacheGet_lazy_expiry 10 _ "ebird:/data/obs/x" ⟨7, 5⟩ (by decide)).1
      (by decide),
   (c5_cacheGet_lazy_expiry 3 _ "ebird:/data/obs/x" ⟨7, 5⟩ (by decide)).2
      (by decide)⟩

/-! ## C7 -/

/-- C7: `getCacheTTL` returns the duration of the first matching entry
of the ordered TTL table — 5 minutes for observation paths, 30 minutes
for hotspot paths, 60 minutes for region and species-list paths,
24 hours for taxonomy paths — and the 5-minute default when no table
entry matches. -/
theorem c7_getCacheTTL (path : String) :
    (jsStartsWith path "/data/obs/" = true →
      getCacheTTL path = 5 * 60 * 1000) ∧
    (jsStartsWith path "/ref/hotspot/" = true →
      getCacheTTL path = 30 * 60 * 1000) ∧
    (jsStartsWith path "/ref/region/" = true →
      getCacheTTL path = 60 * 60 * 1000) ∧
    (jsStartsWith path "/product/spplist/" = true →
      getCacheTTL path = 60 * 60 * 1000) ∧
    (jsStartsWith path "/ref/taxonomy/" = true →
      getCacheTTL path = 24 * 60 * 60 * 1000) ∧
    (jsStartsWith path "/data/obs/" = false →
      jsStartsWith path "/ref/hotspot/" = false →
      jsStartsWith path "/ref/region/" = false →
      jsStartsWith path "/product/spplist/" = false →
      jsStartsWith path "/ref/taxonomy/" = false →
      getCacheTTL path = 5 * 60 * 1000) := by
  refine ⟨fun h => ?_, fun h => ?_, fun h => ?_, fun h => ?_, fun h => ?_,
    fun h1 h2 h3 h4 h5 => ?_⟩
  · simp [getCacheTTL, CACHE_TTL, h]
  · have e1 := jsStartsWith_incompat path "/data/obs/" "/ref/hotspot/"
      (by decide) (by decide) h
    simp [getCacheTTL, CACHE_TTL, h, e1]
  · have e1 := jsStartsWith_incompat path "/data/obs/" "/ref/region/"
      (by decide) (by decide) h
    have e2 := jsStartsWith_incompat path "/ref/hotspot/" "/ref/region/"
      (by decide) (by decide) h
    simp [getCacheTTL, CACHE_TTL, h, e1, e2]
  · have e1 := jsStartsWith_incompat path "/data/obs/" "/product/spplist/"
      (by decide) (by decide) h
    have e2 := jsStartsWith_incompat path "/ref/hotspot/" "/product/spplist/"
      (by decide) (by decide) h
    have e3 := jsStartsWith_incompat path "/ref/region/" "/product/spplist/"
      (by decide) (by decide) h
    simp [getCacheTTL, CACHE_TTL, h, e1, e2, e3]
  · have e1 := jsStartsWith_incompat path "/data/obs/" "/ref/taxonomy/"
      (by decide) (by decide) h
    have e2 := jsStartsWith_incompat path "/ref/hotspot/" "/ref/taxonomy/"
      (by decide) (by decide) h
    have e3 := jsStartsWith_incompat path "/ref/region/" "/ref/taxonomy/"
      (by decide) (by decide) h
    have e4 := jsStartsWith_incompat path "/product/spplist/" "/ref/taxonomy/"
      (by decide) (by decide) h
    simp [getCacheTTL, CACHE_TTL, h, e1, e2, e3, e4]
  · cases hdef : jsStartsWith path "default" <;>
      simp [getCacheTTL, CACHE_TTL, CACHE_TTL_default, h1, h2, h3, h4, h5, hdef]

theorem c7_getCacheTTL_witness :
    getCacheTTL "/data/obs/US-MA/recent" = 5 * 60 * 1000 ∧
    getCacheTTL "/ref/hotspot/info/L123" = 30 * 60 * 1000 ∧
    getCacheTTL "/ref/region/list/subnational1/US" = 60 * 60 * 1000 ∧
    getCacheTTL "/product/spplist/L123" = 60 * 60 * 1000 ∧
    getCacheTTL "/ref/taxonomy/ebird" = 24 * 60 * 60 * 1000 ∧
    getCacheTTL "/product/checklist/view/S1" = 5 * 60 * 1000 :=
  ⟨(c7_getCacheTTL "/data/obs/US-MA/recent").1 (by decide),
   (c7_getCacheTTL "/ref/hotspot/info/L123").2.1 (by decide),
   (c7_getCacheTTL "/ref/region/list/subnational1/US").2.2.1 (by decide),
   (c7_getCacheTTL "/product/spplist/L123").2.2.2.1 (by decide),
   (c7_getCacheTTL "/ref/taxonomy/ebird").2.2.2.2.1 (by decide),
   (c7_getCacheTTL "/product/checklist/view/S1").2.2.2.2.2 (by decide)
     (by decide) (by decide) (by decide) (by decide)⟩

/-! ## C10 -/

/-- C10: `checkRateLimit` always reports a non-negative `remaining`
(clamped at zero); every rejected call reports `remaining = 0`, and the
call that brings the stored count exactly to the maximum is still
allowed while also reporting `remaining = 0` — so `remaining = 0` does
not by itself imply rejection. -/
theorem c10_checkRateLimit_remaining (cfg : RateConfig) (ip : String)
    (now : Nat) (st : RateState) :
    0 ≤ (checkRateLimit cfg ip now st).1.remaining ∧
    ((checkRateLimit cfg ip now st).1.allowed = false →
      (checkRateLimit cfg ip now st).1.remaining = 0) ∧
    (∀ rec : RateRecord, (checkRateLimit cfg ip now st).2 ip = some rec →
      rec.count = cfg.maxRequests →
      (checkRateLimit cfg ip now st).1.allowed = true ∧
      (checkRateLimit cfg ip now st).1.remaining = 0) := by
  obtain ⟨n, R, heq⟩ : ∃ n R, checkRateLimit cfg ip now st =
      (⟨decide (n + 1 ≤ cfg.maxRequests),
        max 0 ((cfg.maxRequests : Int) - ((n + 1 : Nat) : Int)), R⟩,
       fun k => if k = ip then some ⟨n + 1, R⟩ else st k) := by
    unfold checkRateLimit
    exact ⟨_, _, rfl⟩
  simp only [heq]
  refine ⟨le_max_left 0 _, fun hrej => ?_, fun rec hrec hcount => ?_⟩
  · simp only [decide_eq_false_iff_not, Nat.not_le] at hrej
    omega
  · have h2 : ({ count := n + 1, resetTime := R } : RateRecord) = rec := by
      simpa using hrec
    have hc : n + 1 = cfg.maxRequests := by
      rw [← h2] at hcount
      simpa using hcount
    refine ⟨?_, ?_⟩
    · simp [hc]
    · omega

theorem c10_checkRateLimit_remaining_witness :
    0 ≤ (checkRateLimit ⟨10, 2⟩ "c" 0
      (fun k => if k = "c" then some ⟨1, 100⟩ else none)).1.remaining ∧
    (checkRateLimit ⟨10, 2⟩ "c" 0
      (fun k => if k = "c" then some ⟨1, 100⟩ else none)).1.allowed = true ∧
    (checkRateLimit ⟨10, 2⟩ "c" 0
      (fun k => if k = "c" then some ⟨1, 100⟩ else none)).1.remaining = 0 :=
  ⟨(c10_checkRateLimit_remaining ⟨10, 2⟩ "c" 0
      (fun k => if k = "c" then some ⟨1, 100⟩ else none)).1,
   (c10_checkRateLimit_remaining ⟨10, 2⟩ "c" 0
      (fun k => if k = "c" then some ⟨1, 100⟩ else none)).2.2
      ⟨2, 100⟩ (by decide) (by decide)⟩

/-! ## C2 -/

/-- A first call from a client with no record creates the record
`⟨1, now + window⟩`. -/
theorem checkRateLimit_fresh (cfg : RateConfig) (ip : String) (now : Nat)
    (st : RateState) (hfresh : st ip = none) :
    (checkRateLimit cfg ip now st).2 ip = some ⟨1, now + cfg.windowMs⟩ := by
  have hlt : ¬ (now > now + cfg.windowMs) := by omega
  simp [checkRateLimit, hfresh, hlt]

/-- A call at a time not past the stored reset time increments the
stored count and keeps the reset time. -/
theorem checkRateLimit_step (cfg : RateConfig) (ip : String) (t c R : Nat)
    (st : RateState) (hst : st ip = some ⟨c, R⟩) (ht : t ≤ R) :
    (checkRateLimit cfg ip t st).2 ip = some ⟨c + 1, R⟩ := by
  have hlt : ¬ (t > R) := by omega
  simp [checkRateLimit, hst, hlt]

/-- Running a sequence of calls all at times not past the stored reset
time adds the length of the sequence to the stored count. -/
theorem admitSeq_steady (cfg : RateConfig) (ip : String) (R : Nat) :
    ∀ (times : List Nat) (c : Nat) (st : RateState),
    (∀ t ∈ times, t ≤ R) → st ip = some ⟨c, R⟩ →
    (admitSeq cfg ip times st).2 ip = some ⟨c + times.length, R⟩
  | [], c, st, _, hst => by simpa using hst
  | t :: ts, c, st, h, hst => by
    have hstep := checkRateLimit_step cfg ip t c R st hst
      (h t (List.mem_cons_self t ts))
    have hrest := admitSeq_steady cfg ip R ts (c + 1)
      ((checkRateLimit cfg ip t st).2)
      (fun u hu => h u (List.mem_cons_of_mem _ hu)) hstep
    simp only [admitSeq]
    rw [hrest]
    have hlen : c + 1 + ts.length = c + (t :: ts).length := by
      simp [List.length_cons]
      omega
    rw [hlen]

/-- Result of a call at a time not past the stored reset time. -/
theorem checkRateLimit_result_steady (cfg : RateConfig) (ip : String)
    (now c R : Nat) (st : RateState) (hst : st ip = some ⟨c, R⟩)
    (h : now ≤ R) :
    (checkRateLimit cfg ip now st).1 =
      ⟨decide (c + 1 ≤ cfg.maxRequests),
       max 0 ((cfg.maxRequests : Int) - ((c + 1 : Nat) : Int)), R⟩ := by
  have hlt : ¬ (now > R) := by omega
  simp [checkRateLimit, hst, hlt]

/-- Result of a call strictly after the stored reset time: the window
resets, the count restarts at 1. -/
theorem checkRateLimit_result_reset (cfg : RateConfig) (ip : String)
    (now c R : Nat) (st : RateState) (hst : st ip = some ⟨c, R⟩)
    (h : R < now) :
    (checkRateLimit cfg ip now st).1 =
      ⟨decide (1 ≤ cfg.maxRequests),
       max 0 ((cfg.maxRequests : Int) - ((1 : Nat) : Int)),
       now + cfg.windowMs⟩ := by
  simp [checkRateLimit, hst, h]

/-- C2: starting from a client with no record, after `N + 1` admit calls
all within the window of the first call (the last of which is therefore
rejected — the counter having been incremented unconditionally to
`N + 1` before the comparison), the first admit call strictly after the
window has elapsed is allowed again with `remaining = N - 1`. -/
theorem c2_rateLimiter_window (cfg : RateConfig) (hN : 1 ≤ cfg.maxRequests)
    (ip : String) (st : RateState) (hfresh : st ip = none)
    (t0 : Nat) (ts : List Nat) (hlen : ts.length = cfg.maxRequests - 1)
    (hts : ∀ t ∈ ts, t0 ≤ t ∧ t ≤ t0 + cfg.windowMs)
    (t1 : Nat) (_h1a : t0 ≤ t1) (h1b : t1 ≤ t0 + cfg.windowMs)
    (t2 : Nat) (h2 : t0 + cfg.windowMs < t2) :
    (checkRateLimit cfg ip t1 (admitSeq cfg ip (t0 :: ts) st).2).1.allowed
      = false ∧
    (checkRateLimit cfg ip t1 (admitSeq cfg ip (t0 :: ts) st).2).2 ip
      = some ⟨cfg.maxRequests + 1, t0 + cfg.windowMs⟩ ∧
    (checkRateLimit cfg ip t2
      (checkRateLimit cfg ip t1 (admitSeq cfg ip (t0 :: ts) st).2).2).1.allowed
      = true ∧
    (checkRateLimit cfg ip t2
      (checkRateLimit cfg ip t1 (admitSeq cfg ip (t0 :: ts) st).2).2).1.remaining
      = (cfg.maxRequests : Int) - 1 := by
  have hfirst := checkRateLimit_fresh cfg ip t0 st hfresh
  have hstN := admitSeq_steady cfg ip (t0 + cfg.windowMs) ts 1
    ((checkRateLimit cfg ip t0 st).2)
    (fun u hu => (hts u hu).2) hfirst
  rw [hlen] at hstN
  have hcnt : 1 + (cfg.maxRequests - 1) = cfg.maxRequests := by omega
  rw [hcnt] at hstN
  have hstN2 : (admitSeq cfg ip (t0 :: ts) st).2 ip
      = some ⟨cfg.maxRequests, t0 + cfg.windowMs⟩ := by
    simp only [admitSeq]
    exact hstN
  have hrej : (checkRateLimit cfg ip t1 (admitSeq cfg ip (t0 :: ts) st).2).2 ip
      = some ⟨cfg.maxRequests + 1, t0 + cfg.windowMs⟩ :=
    checkRateLimit_step cfg ip t1 cfg.maxRequests (t0 + cfg.windowMs) _
      hstN2 h1b
  have hres1 := checkRateLimit_result_steady cfg ip t1 cfg.maxRequests
    (t0 + cfg.windowMs) _ hstN2 h1b
  have hres2 := checkRateLimit_result_reset cfg ip t2 (cfg.maxRequests + 1)
    (t0 + cfg.windowMs) _ hrej h2
  refine ⟨?_, hrej, ?_, ?_⟩
  · rw [hres1]
    simp only [decide_eq_false_iff_not, Nat.not_le]
    omega
  · rw [hres2]
    simp only [decide_eq_true_eq]
    omega
  · rw [hres2]
    simp only []
    omega

theorem c2_rateLimiter_window_witness :
    (checkRateLimit ⟨10, 2⟩ "c" 5
      (admitSeq ⟨10, 2⟩ "c" [0, 3] (fun _ => none)).2).1.allowed = false ∧
    (checkRateLimit ⟨10, 2⟩ "c" 5
      (admitSeq ⟨10, 2⟩ "c" [0, 3] (fun _ => none)).2).2 "c"
      = some ⟨(⟨10, 2⟩ : RateConfig).maxRequests + 1,
          0 + (⟨10, 2⟩ : RateConfig).windowMs⟩ ∧
    (checkRateLimit ⟨10, 2⟩ "c" 11
      (checkRateLimit ⟨10, 2⟩ "c" 5
        (admitSeq ⟨10, 2⟩ "c" [0, 3] (fun _ => none)).2).2).1.allowed = true ∧
    (checkRateLimit ⟨10, 2⟩ "c" 11
      (checkRateLimit ⟨10, 2⟩ "c" 5
        (admitSeq ⟨10, 2⟩ "c" [0, 3] (fun _ => none)).2).2).1.remaining
      = ((⟨10, 2⟩ : RateConfig).maxRequests : Int) - 1 :=
  c2_rateLimiter_window ⟨10, 2⟩ (by decide) "c" (fun _ => none) rfl 0 [3]
    (by decide) (by decide) 5 (by decide) (by decide) 11 (by decide)

/-! ## Handler reduction lemmas -/

/-- A GET request that passes the rate limiter and whose decoded
endpoint fails the allowlist ends with the 403 rejection, the rate
state already updated and the cache untouched. -/
theorem handler_notAllowed {α : Type} (decode : String → Option String)
    (fetchUpstream : String → FetchResult α) (k : String) (doSweep : Bool)
    (now : Nat) (req : Request) (st : ServerState α) (ep d : String)
    (hm : req.method = "GET") (hep : req.endpoint = some ep)
    (hdec : decode ep = some d)
    (hna : (ALLOWED_PATHS.any fun p => jsStartsWith d p) = false)
    (hrl : (checkRateLimit RATE_LIMIT req.clientIP now
      st.rateLimits).1.allowed = true) :
    handler decode fetchUpstream (some k) doSweep now req st =
      ⟨⟨403, .notAllowed ALLOWED_PATHS, none⟩,
       ⟨st.cache, (checkRateLimit RATE_LIMIT req.clientIP now st.rateLimits).2⟩,
       none⟩ := by
  simp [handler, hm, hep, hdec, hna, hrl]

/-- A GET request that passes the rate limiter and allowlist and finds a
live cache entry responds with the stored payload and the HIT marker,
leaving the cache untouched and issuing no upstream call. -/
theorem handler_hit {α : Type} (decode : String → Option String)
    (fetchUpstream : String → FetchResult α) (k : String) (doSweep : Bool)
    (now : Nat) (req : Request) (st : ServerState α) (ep d : String)
    (e : CacheEntry α)
    (hm : req.method = "GET") (hep : req.endpoint = some ep)
    (hdec : decode ep = some d)
    (ha : (ALLOWED_PATHS.any fun p => jsStartsWith d p) = true)
    (hrl : (checkRateLimit RATE_LIMIT req.clientIP now
      st.rateLimits).1.allowed = true)
    (hhit : cacheGet now st.cache (getCacheKey d) = some e) :
    handler decode fetchUpstream (some k) doSweep now req st =
      ⟨⟨200, .data e.data, some "HIT"⟩,
       ⟨st.cache, (checkRateLimit RATE_LIMIT req.clientIP now st.rateLimits).2⟩,
       none⟩ := by
  simp [handler, hm, hep, hdec, ha, hrl, hhit]

/-- A GET request that reaches the fetch stage and receives a
non-success upstream status forwards that status and body, writes
nothing to the cache, and records the single upstream call. -/
theorem handler_httpError {α : Type} (decode : String → Option String)
    (fetchUpstream : String → FetchResult α) (k : String) (doSweep : Bool)
    (now : Nat) (req : Request) (st : ServerState α) (ep d : String)
    (s : Nat) (b : String)
    (hm : req.method = "GET") (hep : req.endpoint = some ep)
    (hdec : decode ep = some d)
    (ha : (ALLOWED_PATHS.any fun p => jsStartsWith d p) = true)
    (hrl : (checkRateLimit RATE_LIMIT req.clientIP now
      st.rateLimits).1.allowed = true)
    (hmiss : cacheGet now st.cache (getCacheKey d) = none)
    (hf : fetchUpstream d = .httpError s b) :
    handler decode fetchUpstream (some k) doSweep now req st =
      ⟨⟨s, .upstreamError s b, none⟩,
       ⟨st.cache, (checkRateLimit RATE_LIMIT req.clientIP now st.rateLimits).2⟩,
       some d⟩ := by
  simp [handler, hm, hep, hdec, ha, hrl, hmiss, hf]

/-- A GET request that reaches the fetch stage and receives a success
payload stores it with the policy TTL, optionally sweeps, responds with
the MISS marker, and records the single upstream call. -/
theorem handler_success {α : Type} (decode : String → Option String)
    (fetchUpstream : String → FetchResult α) (k : String) (doSweep : Bool)
    (now : Nat) (req : Request) (st : ServerState α) (ep d : String)
    (data : α)
    (hm : req.method = "GET") (hep : req.endpoint = some ep)
    (hdec : decode ep = some d)
    (ha : (ALLOWED_PATHS.any fun p => jsStartsWith d p) = true)
    (hrl : (checkRateLimit RATE_LIMIT req.clientIP now
      st.rateLimits).1.allowed = true)
    (hmiss : cacheGet now st.cache (getCacheKey d) = none)
    (hf : fetchUpstream d = .success data) :
    handler decode fetchUpstream (some k) doSweep now req st =
      ⟨⟨200, .data data, some "MISS"⟩,
       (if doSweep then
          ⟨cleanupCache now (fun k2 => if k2 = getCacheKey d then
              some ⟨data, now + getCacheTTL d⟩ else st.cache k2),
           cleanupRateLimits now
             (checkRateLimit RATE_LIMIT req.clientIP now st.rateLimits).2⟩
        else
          ⟨(fun k2 => if k2 = getCacheKey d then
              some ⟨data, now + getCacheTTL d⟩ else st.cache k2),
           (checkRateLimit RATE_LIMIT req.clientIP now st.rateLimits).2⟩),
       some d⟩ := by
  simp [handler, hm, hep, hdec, ha, hrl, hmiss, hf]

/-! ## C1 -/

/-- C1: when the decoded endpoint starts with none of the seven
allowlist entries, neither handler ever issues an upstream fetch, and
whenever the request reaches the allowlist check (GET method, rate
limit passed, key configured) the response is the 403 rejection whose
body carries the permitted-prefix list. -/
theorem c1_pathNotAllowed {α : Type} (decode : String → Option String)
    (fetchUpstream : String → FetchResult α) (apiKey : Option String)
    (doSweep : Bool) (now : Nat) (req : Request) (st : ServerState α)
    (ep d : String)
    (hep : req.endpoint = some ep) (hdec : decode ep = some d)
    (hna : (ALLOWED_PATHS.any fun p => jsStartsWith d p) = false) :
    (handler decode fetchUpstream apiKey doSweep now req st).upstreamCalled
      = none ∧
    (basicHandler decode fetchUpstream apiKey req).2 = none ∧
    (req.method = "GET" →
      (checkRateLimit RATE_LIMIT req.clientIP now
        st.rateLimits).1.allowed = true →
      ∀ k, apiKey = some k →
      (handler decode fetchUpstream apiKey doSweep now req st).resp.status
        = 403 ∧
      (handler decode fetchUpstream apiKey doSweep now req st).resp.body
        = .notAllowed ALLOWED_PATHS ∧
      (basicHandler decode fetchUpstream apiKey req).1.status = 403 ∧
      (basicHandler decode fetchUpstream apiKey req).1.body
        = .notAllowed ALLOWED_PATHS) := by
  refine ⟨?_, ?_, ?_⟩
  · simp only [handler, hep, hdec, hna, reduceIte]
    repeat first | rfl | split
  · simp only [basicHandler, hep, hdec, hna, reduceIte]
    repeat first | rfl | split
  · intro hm hrl k hk
    subst hk
    rw [handler_notAllowed decode fetchUpstream k doSweep now req st ep d
      hm hep hdec hna hrl]
    refine ⟨rfl, rfl, ?_, ?_⟩ <;> simp [basicHandler, hm, hep, hdec, hna]

theorem c1_pathNotAllowed_witness :
    (handler (α := Nat) (fun e => some e) (fun _ => .thrown "err")
      (some "key") false 0 ⟨"GET", some "/unsafe/path", "1.2.3.4"⟩
      (emptyState Nat)).upstreamCalled = none ∧
    (handler (α := Nat) (fun e => some e) (fun _ => .thrown "err")
      (some "key") false 0 ⟨"GET", some "/unsafe/path", "1.2.3.4"⟩
      (emptyState Nat)).resp.status = 403 ∧
    (handler (α := Nat) (fun e => some e) (fun _ => .thrown "err")
      (some "key") false 0 ⟨"GET", some "/unsafe/path", "1.2.3.4"⟩
      (emptyState Nat)).resp.body = .notAllowed ALLOWED_PATHS :=
  have h := c1_pathNotAllowed (α := Nat) (fun e => some e)
    (fun _ => .thrown "err") (some "key") false 0
    ⟨"GET", some "/unsafe/path", "1.2.3.4"⟩ (emptyState Nat)
    "/unsafe/path" "/unsafe/path" rfl rfl (by decide)
  have h3 := h.2.2 rfl (by decide) "key" rfl
  ⟨h.1, h3.1, h3.2.1⟩

/-! ## C9 -/

/-- C9: a cache hit leaves the cache store entirely unchanged — the
handler returns the stored payload with the HIT marker, performs no
upstream call, and its resulting cache is the very cache it started
from (no write, no sweep). -/
theorem c9_hit_cache_frame {α : Type} (decode : String → Option String)
    (fetchUpstream : String → FetchResult α) (k : String) (doSweep : Bool)
    (now : Nat) (req : Request) (st : ServerState α) (ep d : String)
    (e : CacheEntry α)
    (hm : req.method = "GET") (hep : req.endpoint = some ep)
    (hdec : decode ep = some d)
    (ha : (ALLOWED_PATHS.any fun p => jsStartsWith d p) = true)
    (hrl : (checkRateLimit RATE_LIMIT req.clientIP now
      st.rateLimits).1.allowed = true)
    (hhit : cacheGet now st.cache (getCacheKey d) = some e) :
    (handler decode fetchUpstream (some k) doSweep now req st).state.cache
      = st.cache ∧
    (handler decode fetchUpstream (some k) doSweep now req st).resp
      = ⟨200, .data e.data, some "HIT"⟩ ∧
    (handler decode fetchUpstream (some k) doSweep now req st).upstreamCalled
      = none := by
  rw [handler_hit decode fetchUpstream k doSweep now req st ep d e
    hm hep hdec ha hrl hhit]
  exact ⟨rfl, rfl, rfl⟩

theorem c9_hit_cache_frame_witness :
    (handler (α := Nat) (fun e => some e) (fun _ => .thrown "err")
      (some "key") true 0 ⟨"GET", some "/data/obs/US-MA/recent", "1.2.3.4"⟩
      ⟨fun k2 => if k2 = "ebird:/data/obs/US-MA/recent" then some ⟨42, 1000⟩
        else none, fun _ => none⟩).state.cache
      = (fun k2 => if k2 = "ebird:/data/obs/US-MA/recent" then
          some (⟨42, 1000⟩ : CacheEntry Nat) else none) ∧
    (handler (α := Nat) (fun e => some e) (fun _ => .thrown "err")
      (some "key") true 0 ⟨"GET", some "/data/obs/US-MA/recent", "1.2.3.4"⟩
      ⟨fun k2 => if k2 = "ebird:/data/obs/US-MA/recent" then some ⟨42, 1000⟩
        else none, fun _ => none⟩).resp
      = ⟨200, .data 42, some "HIT"⟩ :=
  have h := c9_hit_cache_frame (α := Nat) (fun e => some e)
    (fun _ => .thrown "err") "key" true 0
    ⟨"GET", some "/data/obs/US-MA/recent", "1.2.3.4"⟩
    ⟨fun k2 => if k2 = "ebird:/data/obs/US-MA/recent" then some ⟨42, 1000⟩
      else none, fun _ => none⟩
    "/data/obs/US-MA/recent" "/data/obs/US-MA/recent" ⟨42, 1000⟩
    rfl rfl rfl (by decide) (by decide) (by decide)
  ⟨h.1, h.2.1⟩

/-! ## C3 -/

/-- C3: a non-success upstream status is forwarded as the response
status (never remapped to 500) with the upstream body text in the
response detail, nothing is written to the cache, and since the cache is
unchanged a subsequent identical request that passes the rate limiter
issues another upstream call. -/
theorem c3_upstreamError_passthrough {α : Type}
    (decode : String → Option String)
    (fetchUpstream : String → FetchResult α) (k : String) (doSweep : Bool)
    (now : Nat) (req : Request) (st : ServerState α) (ep d : String)
    (s : Nat) (b : String)
    (hm : req.method = "GET") (hep : req.endpoint = some ep)
    (hdec : decode ep = some d)
    (ha : (ALLOWED_PATHS.any fun p => jsStartsWith d p) = true)
    (hrl : (checkRateLimit RATE_LIMIT req.clientIP now
      st.rateLimits).1.allowed = true)
    (hmiss : st.cache (getCacheKey d) = none)
    (hf : fetchUpstream d = .httpError s b) :
    (handler decode fetchUpstream (some k) doSweep now req st).resp.status
      = s ∧
    (handler decode fetchUpstream (some k) doSweep now req st).resp.body
      = .upstreamError s b ∧
    (handler decode fetchUpstream (some k) doSweep now req st).state.cache
      = st.cache ∧
    (handler decode fetchUpstream (some k) doSweep now req st).upstreamCalled
      = some d ∧
    (∀ now2 : Nat,
      (checkRateLimit RATE_LIMIT req.clientIP now2
        (handler decode fetchUpstream (some k) doSweep now req
          st).state.rateLimits).1.allowed = true →
      (handler decode fetchUpstream (some k) doSweep now2 req
        (handler decode fetchUpstream (some k) doSweep now req
          st).state).upstreamCalled = some d) := by
  have hmiss2 : ∀ n : Nat, cacheGet n st.cache (getCacheKey d) = none := by
    intro n
    simp [cacheGet, hmiss]
  rw [handler_httpError decode fetchUpstream k doSweep now req st ep d s b
    hm hep hdec ha hrl (hmiss2 now) hf]
  refine ⟨rfl, rfl, rfl, rfl, ?_⟩
  intro now2 hrl2
  rw [handler_httpError decode fetchUpstream k doSweep now2 req
    ⟨st.cache, (checkRateLimit RATE_LIMIT req.clientIP now st.rateLimits).2⟩
    ep d s b hm hep hdec ha hrl2 (hmiss2 now2) hf]

theorem c3_upstreamError_passthrough_witness :
    (handler (α := Nat) (fun e => some e)
      (fun _ => .httpError 404 "not found") (some "key") false 0
      ⟨"GET", some "/data/obs/US-MA/recent", "1.2.3.4"⟩
      (emptyState Nat)).resp.status = 404 ∧
    (handler (α := Nat) (fun e => some e)
      (fun _ => .httpError 404 "not found") (some "key") false 0
      ⟨"GET", some "/data/obs/US-MA/recent", "1.2.3.4"⟩
      (emptyState Nat)).resp.body = .upstreamError 404 "not found" ∧
    (handler (α := Nat) (fun e => some e)
      (fun _ => .httpError 404 "not found") (some "key") false 0
      ⟨"GET", some "/data/obs/US-MA/recent", "1.2.3.4"⟩
      (emptyState Nat)).state.cache = (emptyState Nat).cache ∧
    (handler (α := Nat) (fun e => some e)
      (fun _ => .httpError 404 "not found") (some "key") false 60
      ⟨"GET", some "/data/obs/US-MA/recent", "1.2.3.4"⟩
      (handler (α := Nat) (fun e => some e)
        (fun _ => .httpError 404 "not found") (some "key") false 0
        ⟨"GET", some "/data/obs/US-MA/recent", "1.2.3.4"⟩
        (emptyState Nat)).state).upstreamCalled
      = some "/data/obs/US-MA/recent" :=
  have h := c3_upstreamError_passthrough (α := Nat) (fun e => some e)
    (fun _ => .httpError 404 "not found") "key" false 0
    ⟨"GET", some "/data/obs/US-MA/recent", "1.2.3.4"⟩ (emptyState Nat)
    "/data/obs/US-MA/recent" "/data/obs/US-MA/recent" 404 "not found"
    rfl rfl rfl (by decide) (by decide) rfl rfl
  ⟨h.1, h.2.1, h.2.2.1, h.2.2.2.2 60 (by decide)⟩

/-! ## C4 -/

/-- C4: after a successful fetch stores a payload, a second request for
the same key strictly before the stored expiry returns the identical
stored payload with the HIT marker and no upstream call, while a
request at or after the expiry issues exactly one new upstream call. -/
theorem c4_cache_idempotence {α : Type} (decode : String → Option String)
    (fetchUpstream : String → FetchResult α) (k : String) (doSweep : Bool)
    (now : Nat) (req : Request) (st : ServerState α) (ep d : String)
    (data : α)
    (hm : req.method = "GET") (hep : req.endpoint = some ep)
    (hdec : decode ep = some d)
    (ha : (ALLOWED_PATHS.any fun p => jsStartsWith d p) = true)
    (hrl : (checkRateLimit RATE_LIMIT req.clientIP now
      st.rateLimits).1.allowed = true)
    (hmiss : st.cache (getCacheKey d) = none)
    (hf : fetchUpstream d = .success data) :
    (handler decode fetchUpstream (some k) doSweep now req st).resp
      = ⟨200, .data data, some "MISS"⟩ ∧
    (handler decode fetchUpstream (some k) doSweep now req st).upstreamCalled
      = some d ∧
    (handler decode fetchUpstream (some k) doSweep now req st).state.cache
      (getCacheKey d) = some ⟨data, now + getCacheTTL d⟩ ∧
    (∀ now2 : Nat, now2 < now + getCacheTTL d →
      ∀ doSweep2 : Bool,
      (checkRateLimit RATE_LIMIT req.clientIP now2
        (handler decode fetchUpstream (some k) doSweep now req
          st).state.rateLimits).1.allowed = true →
      (handler decode fetchUpstream (some k) doSweep2 now2 req
        (handler decode fetchUpstream (some k) doSweep now req
          st).state).resp = ⟨200, .data data, some "HIT"⟩ ∧
      (handler decode fetchUpstream (some k) doSweep2 now2 req
        (handler decode fetchUpstream (some k) doSweep now req
          st).state).upstreamCalled = none) ∧
    (∀ now3 : Nat, now + getCacheTTL d ≤ now3 →
      ∀ doSweep3 : Bool,
      (checkRateLimit RATE_LIMIT req.clientIP now3
        (handler decode fetchUpstream (some k) doSweep now req
          st).state.rateLimits).1.allowed = true →
      (handler decode fetchUpstream (some k) doSweep3 now3 req
        (handler decode fetchUpstream (some k) doSweep now req
          st).state).upstreamCalled = some d) := by
  have hmiss1 : cacheGet now st.cache (getCacheKey d) = none := by
    simp [cacheGet, hmiss]
  have heq := handler_success decode fetchUpstream k doSweep now req st ep d
    data hm hep hdec ha hrl hmiss1 hf
  rw [heq]
  have hstore :
      ((if doSweep then
          (⟨cleanupCache now (fun k2 => if k2 = getCacheKey d then
              some ⟨data, now + getCacheTTL d⟩ else st.cache k2),
           cleanupRateLimits now
             (checkRateLimit RATE_LIMIT req.clientIP now st.rateLimits).2⟩ :
             ServerState α)
        else
          ⟨(fun k2 => if k2 = getCacheKey d then
              some ⟨data, now + getCacheTTL d⟩ else st.cache k2),
           (checkRateLimit RATE_LIMIT req.clientIP now
             st.rateLimits).2⟩) : ServerState α).cache (getCacheKey d)
        = some ⟨data, now + getCacheTTL d⟩ := by
    have hne : ¬ (now > now + getCacheTTL d) := by omega
    cases doSweep <;> simp [cleanupCache, hne]
  refine ⟨rfl, rfl, hstore, ?_, ?_⟩
  · intro now2 hlt doSweep2 hrl2
    have hhit2 : cacheGet now2
        ((if doSweep then
            (⟨cleanupCache now (fun k2 => if k2 = getCacheKey d then
                some ⟨data, now + getCacheTTL d⟩ else st.cache k2),
             cleanupRateLimits now
               (checkRateLimit RATE_LIMIT req.clientIP now st.rateLimits).2⟩ :
               ServerState α)
          else
            ⟨(fun k2 => if k2 = getCacheKey d then
                some ⟨data, now + getCacheTTL d⟩ else st.cache k2),
             (checkRateLimit RATE_LIMIT req.clientIP now
               st.rateLimits).2⟩) : ServerState α).cache (getCacheKey d)
        = some ⟨data, now + getCacheTTL d⟩ := by
      simp [cacheGet, hstore, hlt]
    rw [handler_hit decode fetchUpstream k doSweep2 now2 req _ ep d
      ⟨data, now + getCacheTTL d⟩ hm hep hdec ha hrl2 hhit2]
    exact ⟨rfl, rfl⟩
  · intro now3 hge doSweep3 hrl3
    have hmiss3 : cacheGet now3
        ((if doSweep then
            (⟨cleanupCache now (fun k2 => if k2 = getCacheKey d then
                some ⟨data, now + getCacheTTL d⟩ else st.cache k2),
             cleanupRateLimits now
               (checkRateLimit RATE_LIMIT req.clientIP now st.rateLimits).2⟩ :
               ServerState α)
          else
            ⟨(fun k2 => if k2 = getCacheKey d then
                some ⟨data, now + getCacheTTL d⟩ else st.cache k2),
             (checkRateLimit RATE_LIMIT req.clientIP now
               st.rateLimits).2⟩) : ServerState α).cache (getCacheKey d)
        = none := by
      have hnl : ¬ (now3 < now + getCacheTTL d) := by omega
      simp [cacheGet, hstore, hnl]
    rw [handler_success decode fetchUpstream k doSweep3 now3 req _ ep d
      data hm hep hdec ha hrl3 hmiss3 hf]

theorem c4_cache_idempotence_witness :
    (handler (α := Nat) (fun e => some e) (fun _ => .success 42)
      (some "key") false 0 ⟨"GET", some "/data/obs/US-MA/recent", "1.2.3.4"⟩
      (emptyState Nat)).resp = ⟨200, .data 42, some "MISS"⟩ ∧
    (handler (α := Nat) (fun e => some e) (fun _ => .success 42)
      (some "key") false 10 ⟨"GET", some "/data/obs/US-MA/recent", "1.2.3.4"⟩
      (handler (α := Nat) (fun e => some e) (fun _ => .success 42)
        (some "key") false 0
        ⟨"GET", some "/data/obs/US-MA/recent", "1.2.3.4"⟩
        (emptyState Nat)).state).resp = ⟨200, .data 42, some "HIT"⟩ ∧
    (handler (α := Nat) (fun e => some e) (fun _ => .success 42)
      (some "key") false 10 ⟨"GET", some "/data/obs/US-MA/recent", "1.2.3.4"⟩
      (handler (α := Nat) (fun e => some e) (fun _ => .success 42)
        (some "key") false 0
        ⟨"GET", some "/data/obs/US-MA/recent", "1.2.3.4"⟩
        (emptyState Nat)).state).upstreamCalled = none ∧
    (handler (α := Nat) (fun e => some e) (fun _ => .success 42)
      (some "key") false 300000
      ⟨"GET", some "/data/obs/US-MA/recent", "1.2.3.4"⟩
      (handler (α := Nat) (fun e => some e) (fun _ => .success 42)
        (some "key") false 0
        ⟨"GET", some "/data/obs/US-MA/recent", "1.2.3.4"⟩
        (emptyState Nat)).state).upstreamCalled
      = some "/data/obs/US-MA/recent" :=
  have h := c4_cache_idempotence (α := Nat) (fun e => some e)
    (fun _ => .success 42) "key" false 0
    ⟨"GET", some "/data/obs/US-MA/recent", "1.2.3.4"⟩ (emptyState Nat)
    "/data/obs/US-MA/recent" "/data/obs/US-MA/recent" 42
    rfl rfl rfl (by decide) (by decide) rfl rfl
  have h2 := h.2.2.2.1 10 (by decide) false (by decide)
  have h3 := h.2.2.2.2 300000 (by decide) false (by decide)
  ⟨h.1, h2.1, h2.2, h3⟩

/-! ## C6 -/

/-- C6 counterexample: a GET request from a previously unseen client
whose endpoint fails the allowlist exits with 403 (PathNotAllowed), yet
afterwards the client's rate record exists with count 1 — the rate
limiter ran before the allowlist validator, so the record is not left
unchanged. -/
theorem c6_counterexample :
    (handler (α := Nat) (fun e => some e) (fun _ => .thrown "err")
      (some "key") false 0 ⟨"GET", some "/bad", "203.0.113.9"⟩
      (emptyState Nat)).resp.status = 403 ∧
    (handler (α := Nat) (fun e => some e) (fun _ => .thrown "err")
      (some "key") false 0 ⟨"GET", some "/bad", "203.0.113.9"⟩
      (emptyState Nat)).resp.body = .notAllowed ALLOWED_PATHS ∧
    (emptyState Nat).rateLimits "203.0.113.9" = none ∧
    (handler (α := Nat) (fun e => some e) (fun _ => .thrown "err")
      (some "key") false 0 ⟨"GET", some "/bad", "203.0.113.9"⟩
      (emptyState Nat)).state.rateLimits "203.0.113.9"
      = some ⟨1, 60000⟩ := by
  refine ⟨by decide, by decide, rfl, by decide⟩

/-- C6 (amended): the pipeline runs the Rate Limiter before the
Allowlist Validator; every GET request that exits with InvalidEncoding
or PathNotAllowed leaves the rate state exactly as one admit call for
the client updated it — the counter was incremented, and a record was
created for a previously unseen client. -/
theorem c6_amended_rateLimiter_before_allowlist {α : Type}
    (decode : String → Option String)
    (fetchUpstream : String → FetchResult α) (k : String) (doSweep : Bool)
    (now : Nat) (req : Request) (st : ServerState α) (ep : String)
    (hm : req.method = "GET") (hep : req.endpoint = some ep)
    (hrl : (checkRateLimit RATE_LIMIT req.clientIP now
      st.rateLimits).1.allowed = true)
    (hbad : decode ep = none ∨
      ∃ d, decode ep = some d ∧
        (ALLOWED_PATHS.any fun p => jsStartsWith d p) = false) :
    ((handler decode fetchUpstream (some k) doSweep now req st).resp.status
        = 400 ∧
      (handler decode fetchUpstream (some k) doSweep now req st).resp.body
        = .invalidEncoding ∨
     (handler decode fetchUpstream (some k) doSweep now req st).resp.status
        = 403 ∧
      (handler decode fetchUpstream (some k) doSweep now req st).resp.body
        = .notAllowed ALLOWED_PATHS) ∧
    (handler decode fetchUpstream (some k) doSweep now req
        st).state.rateLimits
      = (checkRateLimit RATE_LIMIT req.clientIP now st.rateLimits).2 := by
  rcases hbad with hd | ⟨d, hd, hna⟩
  · have heq : handler decode fetchUpstream (some k) doSweep now req st =
        ⟨⟨400, .invalidEncoding, none⟩,
         ⟨st.cache,
          (checkRateLimit RATE_LIMIT req.clientIP now st.rateLimits).2⟩,
         none⟩ := by
      simp [handler, hm, hep, hd, hrl]
    rw [heq]
    exact ⟨Or.inl ⟨rfl, rfl⟩, rfl⟩
  · rw [handler_notAllowed decode fetchUpstream k doSweep now req st ep d
      hm hep hd hna hrl]
    exact ⟨Or.inr ⟨rfl, rfl⟩, rfl⟩

theorem c6_amended_witness :
    ((handler (α := Nat) (fun e => some e) (fun _ => .thrown "err")
        (some "key") false 0 ⟨"GET", some "/bad", "203.0.113.9"⟩
        (emptyState Nat)).resp.status = 400 ∧
      (handler (α := Nat) (fun e => some e) (fun _ => .thrown "err")
        (some "key") false 0 ⟨"GET", some "/bad", "203.0.113.9"⟩
        (emptyState Nat)).resp.body = .invalidEncoding ∨
     (handler (α := Nat) (fun e => some e) (fun _ => .thrown "err")
        (some "key") false 0 ⟨"GET", some "/bad", "203.0.113.9"⟩
        (emptyState Nat)).resp.status = 403 ∧
      (handler (α := Nat) (fun e => some e) (fun _ => .thrown "err")
        (some "key") false 0 ⟨"GET", some "/bad", "203.0.113.9"⟩
        (emptyState Nat)).resp.body = .notAllowed ALLOWED_PATHS) ∧
    (handler (α := Nat) (fun e => some e) (fun _ => .thrown "err")
      (some "key") false 0 ⟨"GET", some "/bad", "203.0.113.9"⟩
      (emptyState Nat)).state.rateLimits
      = (checkRateLimit RATE_LIMIT "203.0.113.9" 0
          (emptyState Nat).rateLimits).2 :=
  c6_amended_rateLimiter_before_allowlist (α := Nat) (fun e => some e)
    (fun _ => .thrown "err") "key" false 0
    ⟨"GET", some "/bad", "203.0.113.9"⟩ (emptyState Nat) "/bad"
    rfl rfl (by decide) (Or.inr ⟨"/bad", rfl, by decide⟩)

/-! ## C8 -/

/-- A GET request that fails the rate limiter is rejected with 429 and a
`retryAfter` of `ceil((resetTime - now) / 1000)` seconds. -/
theorem handler_rejected {α : Type} (decode : String → Option String)
    (fetchUpstream : String → FetchResult α) (apiKey : Option String)
    (doSweep : Bool) (now : Nat) (req : Request) (st : ServerState α)
    (hm : req.method = "GET")
    (hrl : (checkRateLimit RATE_LIMIT req.clientIP now
      st.rateLimits).1.allowed = false) :
    handler decode fetchUpstream apiKey doSweep now req st =
      ⟨⟨429, .rateLimited (jsCeilDiv
          (((checkRateLimit RATE_LIMIT req.clientIP now
              st.rateLimits).1.resetTime : Int) - (now : Int)) 1000), none⟩,
       ⟨st.cache, (checkRateLimit RATE_LIMIT req.clientIP now st.rateLimits).2⟩,
       none⟩ := by
  simp [handler, hm, hrl]

/-- On a rejected call the window was not reset, so the reported reset
time is the stored one and has not yet passed. -/
theorem checkRateLimit_reject_resetTime (cfg : RateConfig) (ip : String)
    (now : Nat) (st : RateState) (hmax : 1 ≤ cfg.maxRequests)
    (hrej : (checkRateLimit cfg ip now st).1.allowed = false) :
    now ≤ (checkRateLimit cfg ip now st).1.resetTime ∧
    ∃ rec, st ip = some rec ∧
      (checkRateLimit cfg ip now st).1.resetTime = rec.resetTime := by
  cases hip : st ip with
  | none =>
    exfalso
    have : (checkRateLimit cfg ip now st).1.allowed = true := by
      have hlt : ¬ (now > now + cfg.windowMs) := by omega
      simp [checkRateLimit, hip, hlt]
      omega
    rw [this] at hrej
    exact Bool.true_eq_false.mp hrej
  | some rec =>
    by_cases hr : rec.resetTime < now
    · exfalso
      have : (checkRateLimit cfg ip now st).1.allowed = true := by
        simp [checkRateLimit, hip, hr]
        omega
      rw [this] at hrej
      exact Bool.true_eq_false.mp hrej
    · have hres : (checkRateLimit cfg ip now st).1.resetTime
          = rec.resetTime := by
        simp [checkRateLimit, hip, hr]
      exact ⟨by omega, rec, rfl, hres⟩

/-- `Math.ceil(a / 1000)` for `0 ≤ a ≤ 60000` lies between 0 and 60. -/
theorem jsCeilDiv_bounds (a : Int) (h0 : 0 ≤ a) (h1 : a ≤ 60000) :
    0 ≤ jsCeilDiv a 1000 ∧ jsCeilDiv a 1000 ≤ 60 := by
  unfold jsCeilDiv
  rw [Int.fdiv_eq_ediv _ (by omega : (0 : Int) ≤ 1000)]
  have hA : (-a) / 1000 ≤ 0 := by
    have h := Int.ediv_le_ediv (by omega : (0 : Int) < 1000)
      (by omega : -a ≤ (0 : Int))
    simpa using h
  have hB : (-60000 : Int) / 1000 ≤ (-a) / 1000 :=
    Int.ediv_le_ediv (by omega) (by omega)
  have hC : (-60000 : Int) / 1000 = -60 := by decide
  omega

set_option maxRecDepth 100000 in
/-- C8 counterexample: the 101st request of a window arriving exactly at
the stored reset time is rejected with `retryAfter = 0`, refuting the
claim that `retryAfter` is strictly positive on every 429 response. -/
theorem c8_counterexample :
    (handler (α := Nat) (fun e => some e) (fun _ => .thrown "err")
      (some "key") false 60000 ⟨"GET", none, "198.51.100.7"⟩
      (iterateState (fun s => (handler (α := Nat) (fun e => some e)
          (fun _ => .thrown "err") (some "key") false 0
          ⟨"GET", none, "198.51.100.7"⟩ s).state) 100
        (emptyState Nat))).resp
      = ⟨429, .rateLimited 0, none⟩ := by decide

/-- C8 (amended): on every rate-limited (429) response, provided the
stored reset time was set no further than one window into the future,
the `retryAfter` value — the ceiling of `(resetTime - now)` in
seconds — is non-negative and at most the window length (60 seconds);
it can be exactly 0 when the rejected request arrives exactly at the
reset time. -/
theorem c8_amended_retryAfter_bounds {α : Type}
    (decode : String → Option String)
    (fetchUpstream : String → FetchResult α) (apiKey : Option String)
    (doSweep : Bool) (now : Nat) (req : Request) (st : ServerState α)
    (hm : req.method = "GET")
    (hinv : ∀ rec, st.rateLimits req.clientIP = some rec →
      rec.resetTime ≤ now + RATE_LIMIT.windowMs)
    (hrej : (checkRateLimit RATE_LIMIT req.clientIP now
      st.rateLimits).1.allowed = false) :
    (handler decode fetchUpstream apiKey doSweep now req st).resp.status
      = 429 ∧
    ∃ ra : Int,
      (handler decode fetchUpstream apiKey doSweep now req st).resp.body
        = .rateLimited ra ∧ 0 ≤ ra ∧ ra ≤ 60 := by
  rw [handler_rejected decode fetchUpstream apiKey doSweep now req st hm hrej]
  obtain ⟨hge, rec, hrec, heqR⟩ := checkRateLimit_reject_resetTime RATE_LIMIT
    req.clientIP now st.rateLimits (by decide) hrej
  have hub : (checkRateLimit RATE_LIMIT req.clientIP now
      st.rateLimits).1.resetTime ≤ now + 60000 := by
    rw [heqR]
    exact hinv rec hrec
  have hbounds := jsCeilDiv_bounds
    (((checkRateLimit RATE_LIMIT req.clientIP now
        st.rateLimits).1.resetTime : Int) - (now : Int))
    (by omega) (by omega)
  exact ⟨rfl, _, rfl, hbounds.1, hbounds.2⟩

theorem c8_amended_witness :
    (handler (α := Nat) (fun e => some e) (fun _ => .thrown "err")
      (some "key") false 500 ⟨"GET", none, "198.51.100.7"⟩
      ⟨fun _ => none, fun k2 => if k2 = "198.51.100.7" then
        some ⟨100, 60000⟩ else none⟩).resp.status = 429 ∧
    ∃ ra : Int,
      (handler (α := Nat) (fun e => some e) (fun _ => .thrown "err")
        (some "key") false 500 ⟨"GET", none, "198.51.100.7"⟩
        ⟨fun _ => none, fun k2 => if k2 = "198.51.100.7" then
          some ⟨100, 60000⟩ else none⟩).resp.body
        = .rateLimited ra ∧ 0 ≤ ra ∧ ra ≤ 60 :=
  c8_amended_retryAfter_bounds (α := Nat) (fun e => some e)
    (fun _ => .thrown "err") (some "key") false 500
    ⟨"GET", none, "198.51.100.7"⟩
    ⟨fun _ => none, fun k2 => if k2 = "198.51.100.7" then
      some ⟨100, 60000⟩ else none⟩
    rfl
    (by intro rec h
        simp only [reduceIte] at h
        cases h
        decide)
    (by decide)

end Birding
